import Mathlib

/-!
Verification of the client-side controller of the social-good deed application
(`src/components/Donate.jsx` — which bundles the `App` component — and
`src/components/Overview.jsx`).  The remote contract, the wallet SDK and the
browser `decodeURI` builtin are external collaborators and are modelled as
explicit parameters; everything else is translated directly from the source.
-/

namespace SocialGoodHunt

/-- Wallet-derived identity: `{accountId, balance}` (see `App.propTypes`). -/
structure Identity where
  accountId : String
  balance : String
deriving Repr, DecidableEq

/-- A deed record as returned by the ledger (`social_deeds` response), with the
viewer-relative `is_creditor` flag already supplied by the service. -/
structure Deed where
  id : Nat
  author : String
  title : String
  description : String
  proof : String
  creditors : Nat
  is_creditor : Bool
deriving Repr, DecidableEq

/-- Function `splitArrayIntoChunksOfLen` from `Overview.jsx` lines 24–30: repeatedly
slice `len` elements off the front (`arr.slice(i, i += len)`) until the array
is exhausted.  The app only ever calls it with `len = 2`; for `len = 0` the
JS loop would not terminate, so the embedding is faithful only for `len ≥ 1`. -/
def splitArrayIntoChunksOfLen : List α → Nat → List (List α)
  | [], _ => []
  | a :: rest, len =>
    (a :: rest).take len :: splitArrayIntoChunksOfLen (rest.drop (len - 1)) len
termination_by arr _ => arr.length
decreasing_by simp [List.length_drop]; omega

theorem split_nil : splitArrayIntoChunksOfLen ([] : List α) 2 = [] := by
  simp [splitArrayIntoChunksOfLen]

theorem split_one (a : α) : splitArrayIntoChunksOfLen [a] 2 = [[a]] := by
  simp [splitArrayIntoChunksOfLen]

theorem split_cons2 (a b : α) (t : List α) :
    splitArrayIntoChunksOfLen (a :: b :: t) 2 = [a, b] :: splitArrayIntoChunksOfLen t 2 := by
  simp [splitArrayIntoChunksOfLen]

theorem split_flatten : ∀ (l : List α), (splitArrayIntoChunksOfLen l 2).flatten = l
  | [] => by simp [split_nil]
  | [a] => by simp [split_one]
  | a :: b :: t => by
      rw [split_cons2]
      simp [split_flatten t]
termination_by l => l.length

theorem split_length : ∀ (l : List α),
    (splitArrayIntoChunksOfLen l 2).length = (l.length + 1) / 2
  | [] => by simp [split_nil]
  | [a] => by simp [split_one]
  | a :: b :: t => by
      rw [split_cons2]
      simp [split_length t]
      omega
termination_by l => l.length

theorem split_ne_nil (l : List α) (h : l ≠ []) : splitArrayIntoChunksOfLen l 2 ≠ [] := by
  cases l with
  | nil => exact absurd rfl h
  | cons a rest => simp [splitArrayIntoChunksOfLen]

theorem split_dropLast : ∀ (l : List α),
    ∀ c ∈ (splitArrayIntoChunksOfLen l 2).dropLast, c.length = 2
  | [] => by simp [split_nil]
  | [a] => by simp [split_one]
  | a :: b :: t => by
      rw [split_cons2]
      cases ht : t with
      | nil => simp [ht, split_nil]
      | cons x xs =>
        have hne : splitArrayIntoChunksOfLen t 2 ≠ [] := by
          rw [ht]; exact split_ne_nil _ (by simp)
        rw [← ht]
        rw [List.dropLast_cons_of_ne_nil hne]
        intro c hc
        rcases List.mem_cons.mp hc with h | h
        · subst h; rfl
        · exact split_dropLast t c h
termination_by l => l.length

theorem split_getLast : ∀ (l : List α) (c : List α),
    (splitArrayIntoChunksOfLen l 2).getLast? = some c →
    c.length = if l.length % 2 = 1 then 1 else 2
  | [], c => by simp [split_nil]
  | [a], c => by
      simp [split_one]
      intro h; subst h; simp
  | a :: b :: t, c => by
      rw [split_cons2]
      cases ht : t with
      | nil =>
        simp [ht, split_nil]
        intro h; subst h; simp
      | cons x xs =>
        have hne : splitArrayIntoChunksOfLen t 2 ≠ [] := by
          rw [ht]; exact split_ne_nil _ (by simp)
        rw [← ht]
        obtain ⟨r, rs, hr⟩ := List.exists_cons_of_ne_nil hne
        rw [hr, List.getLast?_cons_cons]
        intro h
        have hrec := split_getLast t c (by rw [hr]; exact h)
        have hmod : (a :: b :: t).length % 2 = t.length % 2 := by
          simp only [List.length_cons]; omega
        rw [hmod]
        exact hrec
termination_by l _ => l.length

/-- The retained browser navigation/URL state.  `window.location.origin + window.location.pathname`
excludes the query string and the fragment, so those are modelled as separate fields
(`search` as an ordered association list of query parameters). -/
structure NavState where
  origin : String
  pathname : String
  search : List (String × String)
  hash : String
deriving Repr, DecidableEq

/-- The `App` component's local React state: `useState('')` for `message` and
`useState(false)` for `registered` (`Donate.jsx` lines 81–82). -/
structure AppState where
  message : String
  registered : Bool
deriving Repr, DecidableEq

/-- The initial `App` state before any effect has run: `message = ''`, `registered = false`. -/
def initialAppState : AppState := { message := "", registered := false }

/-- JavaScript truthiness of a possibly-absent string (`if (error)`,
`else if (lastTransaction)`): `undefined`/`null` and the empty string are falsy. -/
def truthy (s : Option String) : Bool :=
  match s with
  | none => false
  | some v => v != ""

/-- Embedding of `window.history.pushState` with URL `origin + pathname`
(`Donate.jsx` lines 164 and 168): the retained URL is replaced by origin + pathname,
so the query string and the fragment are dropped. -/
def purgeNav (nav : NavState) : NavState :=
  { origin := nav.origin, pathname := nav.pathname, search := [], hash := "" }

/-- The navigation effect of `signOut` (`Donate.jsx` line 183):
`window.location.replace(window.location.origin + window.location.pathname)` —
like the notifier's purge, it rebuilds the URL from origin + pathname alone. -/
def signOutNavEffect (nav : NavState) : NavState :=
  { origin := nav.origin, pathname := nav.pathname, search := [], hash := "" }

/-- Modelled from the spec: the application bootstrap (not under `src/`) reads the
redirect-carried transaction signal — "either an error payload or a transaction
identifier is appended to the retained navigation state" (§6) — from the query
parameters and passes it to `App` as the `error` prop. -/
def readError (nav : NavState) : Option String :=
  nav.search.lookup "errorMessage"

/-- Modelled from the spec: the application bootstrap (not under `src/`) reads the
redirect-carried success transaction identifier from the query parameters and
passes it to `App` as the `lastTransaction` prop. -/
def readTransaction (nav : NavState) : Option String :=
  nav.search.lookup "transactionHashes"

/-- The transaction-notifier effect (`Donate.jsx` lines 161–170): if `error` is
truthy, show `decodeURI(error)` and purge the URL; else if `lastTransaction` is
truthy, show the success message and purge the URL; else do nothing.
`decodeURI` is a browser builtin, passed in as an opaque function. -/
def notifierEffect (decodeURI : String → String) (error lastTransaction : Option String)
    (st : AppState) (nav : NavState) : AppState × NavState :=
  if truthy error then
    ({ st with message := decodeURI (error.getD "") }, purgeNav nav)
  else if truthy lastTransaction then
    ({ st with message := "Successfully executed transaction " ++ lastTransaction.getD "" },
      purgeNav nav)
  else (st, nav)

/-- Effect `fetchRegistered` (`Donate.jsx` lines 153–158) applied to the outcome of the
remote `is_registered` call: on success `setRegistered(isRegistered)` runs; if the
call rejects, the rejection is unhandled and `setRegistered` is never reached, so
the state is left untouched. -/
def fetchRegistered (isRegisteredResult : Except String Bool) (st : AppState) : AppState :=
  match isRegisteredResult with
  | .ok b => { st with registered := b }
  | .error _ => st

/-- Constant `BOATLOAD_OF_GAS = Big(3).times(10 ** 13).toFixed()` (`Donate.jsx` line 78),
as a yoctoNEAR-style integer (the JS value is its decimal string). -/
def BOATLOAD_OF_GAS : Nat := 3 * 10 ^ 13

/-- The attached deposit of the `credit` call:
`Big('0.002').times(10 ** 24).toFixed()` = 0.002 NEAR in yoctoNEAR. -/
def creditDepositYocto : Nat := 2 * 10 ^ 21

/-- Arguments of an outgoing `contract.credit` call: `{id}`, gas budget, attached
deposit (all fixed by `onCredit`). -/
structure CreditCall where
  id : Nat
  gas : Nat
  deposit : Nat
deriving Repr, DecidableEq

/-- Handler `onCredit` (`Donate.jsx` lines 105–120): if `deed.is_creditor`, set the local
message `"You already credited deed #<id>"` and return without calling the
contract; otherwise issue `contract.credit({id: deed.id}, BOATLOAD_OF_GAS,
0.002 NEAR)`.  The outgoing call (if any) is returned explicitly. -/
def onCredit (deed : Deed) (st : AppState) : AppState × Option CreditCall :=
  if deed.is_creditor then
    ({ st with message := "You already credited deed #" ++ toString deed.id }, none)
  else
    (st, some { id := deed.id, gas := BOATLOAD_OF_GAS, deposit := creditDepositYocto })

/-- The three credit-action states of a deed relative to a viewer. -/
inductive CreditDecision where
  | alreadyCredited
  | selfAuthored
  | eligible
deriving Repr, DecidableEq

/-- The credit-affordance dispatch of `Overview.jsx` lines 53–71: the nested
ternary `deed.is_creditor ? <disabled "already credited"> : deed.author ===
currentUser.accountId ? <disabled "cannot credit yourself"> : <enabled>`;
the three button renderings are labelled by `CreditDecision`. -/
def decide (deed : Deed) (viewerAccountId : String) : CreditDecision :=
  if deed.is_creditor then .alreadyCredited
  else if deed.author = viewerAccountId then .selfAuthored
  else .eligible

/-- Request shape of `contract.social_deeds` (`Overview.jsx` lines 11–16):
`{creditor_id, from_index: "0", limit: parseInt(count)}` — `from_index` is the
string literal `"0"`, `limit` a number. -/
structure SocialDeedsRequest where
  creditor_id : String
  from_index : String
  limit : Nat
deriving Repr, DecidableEq

/-- The remote ledger client as seen by `Overview`: `get_deeds_count()` returns
the total count (the JS `parseInt` of its canonical decimal form is the identity),
and `social_deeds` returns an ordered page of deeds for a request. -/
structure Contract where
  get_deeds_count : Nat
  social_deeds : SocialDeedsRequest → List Deed

/-- Effect `fetchData` (`Overview.jsx` lines 9–19): await the count, request one page
with `creditor_id = viewer`, `from_index = "0"`, `limit = count`, and store the
page split into rows of width 2. -/
def fetchData (contract : Contract) (viewerAccountId : String) : List (List Deed) :=
  let count := contract.get_deeds_count
  let result := contract.social_deeds
    { creditor_id := viewerAccountId, from_index := "0", limit := count }
  splitArrayIntoChunksOfLen result 2

/-- The four protected routes of `App` (`Donate.jsx` lines 193–220). -/
inductive RoutePath where
  | index
  | publish
  | overview
  | donate
deriving Repr, DecidableEq

/-- The element a protected route renders: the shared sign-in and register views,
or one of the four route-specific content components. -/
inductive View where
  | signIn
  | register
  | dashboard
  | publishForm
  | overviewFeed
  | donateForm
deriving Repr, DecidableEq

/-- The route table of `App` (`Donate.jsx` lines 193–220): each protected route
repeats the ternary `currentUser ? (registered ? <content> : <Register/>) :
<SignIn/>`, with the route-specific content component in the middle. -/
def routeElement (path : RoutePath) (currentUser : Option Identity) (registered : Bool) : View :=
  match path with
  | .index =>
    match currentUser with
    | some _ => if registered then .dashboard else .register
    | none => .signIn
  | .publish =>
    match currentUser with
    | some _ => if registered then .publishForm else .register
    | none => .signIn
  | .overview =>
    match currentUser with
    | some _ => if registered then .overviewFeed else .register
    | none => .signIn
  | .donate =>
    match currentUser with
    | some _ => if registered then .donateForm else .register
    | none => .signIn

/-- The spec's three view branches (`SessionState` consumed by the route guard). -/
inductive SessionView where
  | signInView
  | registerView
  | contentView
deriving Repr, DecidableEq

/-- Classify a rendered element into the spec's three branches: the four
content components all count as the content branch. -/
def viewBranch : View → SessionView
  | .signIn => .signInView
  | .register => .registerView
  | .dashboard => .contentView
  | .publishForm => .contentView
  | .overviewFeed => .contentView
  | .donateForm => .contentView

/-- Modelled from the spec (§4.1): the three-way dispatch on session state —
null identity → sign-in, unregistered → register, registered → content.
This is the spec-side reference the route table is compared against. -/
def sessionDispatch (currentUser : Option Identity) (registered : Bool) : SessionView :=
  match currentUser with
  | none => .signInView
  | some _ => if registered then .contentView else .registerView

/-- C1: on every protected route, the rendered view branch is fully determined by
the session state `(currentUser, registered)` and equals the same three-way
dispatch (null identity → sign-in, unregistered → register, registered →
content) on all four routes; `routeElement` is a total function, so exactly one
branch is rendered at a time and there is no route-specific exception. -/
theorem route_dispatch_uniform (path : RoutePath) (currentUser : Option Identity)
    (registered : Bool) (ident : Identity) :
    viewBranch (routeElement path currentUser registered) = sessionDispatch currentUser registered
    ∧ routeElement path none registered = View.signIn
    ∧ routeElement path (some ident) false = View.register
    ∧ viewBranch (routeElement path (some ident) true) = SessionView.contentView := by
  cases path <;> cases currentUser <;> cases registered <;>
    simp [routeElement, viewBranch, sessionDispatch]

/-- C2: the credit-eligibility decision is a total, deterministic function of
`(deed.is_creditor, deed.author, viewer.accountId)`: `is_creditor = true` gives
`AlreadyCredited` even when the viewer is also the author (so `AlreadyCredited`
strictly precedes `SelfAuthored`); otherwise `author = viewer` gives
`SelfAuthored`; otherwise `Eligible`. -/
theorem decide_total_precedence (deed : Deed) (viewer : String) :
    (deed.is_creditor = true → decide deed viewer = CreditDecision.alreadyCredited)
    ∧ (deed.is_creditor = false → deed.author = viewer →
        decide deed viewer = CreditDecision.selfAuthored)
    ∧ (deed.is_creditor = false → deed.author ≠ viewer →
        decide deed viewer = CreditDecision.eligible)
    ∧ (∀ d2 : Deed, d2.is_creditor = deed.is_creditor → d2.author = deed.author →
        decide d2 viewer = decide deed viewer) := by
  refine ⟨fun h => ?_, fun h h2 => ?_, fun h h2 => ?_, fun d2 h h2 => ?_⟩
  · simp [decide, h]
  · simp [decide, h, h2]
  · simp [decide, h, h2]
  · simp [decide, h, h2]

/-- C2 witness: a deed authored by the viewer with `is_creditor = true` decides
to `AlreadyCredited` — the precedence case. -/
theorem decide_total_precedence_witness :
    decide ⟨7, "alice", "t", "d", "p", 3, true⟩ "alice" = CreditDecision.alreadyCredited :=
  (decide_total_precedence ⟨7, "alice", "t", "d", "p", 3, true⟩ "alice").1 rfl

/-- C3: partitioning a sequence of N deeds into rows of width 2 yields exactly
`⌈N/2⌉ = (N+1)/2` rows, concatenating the rows restores the original sequence,
every row except possibly the last has length exactly 2, the last row has
length 1 iff N is odd (else 2), and N = 0 yields zero rows. -/
theorem split_rows_spec (l : List Deed) :
    (splitArrayIntoChunksOfLen l 2).length = (l.length + 1) / 2
    ∧ (splitArrayIntoChunksOfLen l 2).flatten = l
    ∧ (∀ c ∈ (splitArrayIntoChunksOfLen l 2).dropLast, c.length = 2)
    ∧ (∀ c, (splitArrayIntoChunksOfLen l 2).getLast? = some c →
        c.length = if l.length % 2 = 1 then 1 else 2)
    ∧ (l = [] → splitArrayIntoChunksOfLen l 2 = []) :=
  ⟨split_length l, split_flatten l, split_dropLast l, fun c h => split_getLast l c h,
    fun h => by rw [h]; exact split_nil⟩

/-- Concrete three-deed feed used to instantiate the C3 theorem. -/
def threeDeeds : List Deed :=
  [⟨1, "ann", "t1", "d1", "p1", 0, false⟩,
   ⟨2, "ben", "t2", "d2", "p2", 1, false⟩,
   ⟨3, "cat", "t3", "d3", "p3", 2, true⟩]

/-- C3 witness: at the three-deed feed the partition has 2 rows, flattens back to
the original sequence, and the last row (the odd remainder) has length 1. -/
theorem split_rows_spec_witness :
    (splitArrayIntoChunksOfLen threeDeeds 2).length = 2
    ∧ (splitArrayIntoChunksOfLen threeDeeds 2).flatten = threeDeeds
    ∧ (∀ c ∈ (splitArrayIntoChunksOfLen threeDeeds 2).dropLast, c.length = 2)
    ∧ (∀ c, (splitArrayIntoChunksOfLen threeDeeds 2).getLast? = some c → c.length = 1) := by
  obtain ⟨h1, h2, h3, h4, _⟩ := split_rows_spec threeDeeds
  exact ⟨h1, h2, h3, fun c hc => by simpa using h4 c hc⟩

/-- C4: the feed fetch issues the page request with `creditor_id = viewer`,
`from_index = "0"` and `limit` equal to the count obtained first; whatever page
the service returns — in particular one shorter than the requested limit — is
simply partitioned into rows with no error and no re-sorting (flattening the
rows restores the returned page in order). -/
theorem fetchData_request_and_tolerance (c : Contract) (viewer : String) :
    fetchData c viewer = splitArrayIntoChunksOfLen
        (c.social_deeds
          { creditor_id := viewer, from_index := "0", limit := c.get_deeds_count }) 2
    ∧ (fetchData c viewer).flatten =
        c.social_deeds
          { creditor_id := viewer, from_index := "0", limit := c.get_deeds_count }
    ∧ (∀ page : List Deed, page.length < c.get_deeds_count →
        c.social_deeds
          { creditor_id := viewer, from_index := "0", limit := c.get_deeds_count } = page →
        fetchData c viewer = splitArrayIntoChunksOfLen page 2
        ∧ (fetchData c viewer).flatten = page) :=
  ⟨rfl, split_flatten _, fun page _ hpage =>
    ⟨by rw [fetchData, hpage], by rw [fetchData, hpage]; exact split_flatten _⟩⟩

/-- Four-deed page returned by the short-page contract below. -/
def fourDeedPage : List Deed :=
  [⟨1, "ann", "t1", "d1", "p1", 0, false⟩,
   ⟨2, "ben", "t2", "d2", "p2", 0, false⟩,
   ⟨3, "cat", "t3", "d3", "p3", 0, false⟩,
   ⟨4, "dan", "t4", "d4", "p4", 0, false⟩]

/-- Ledger double whose count is 5 but whose page has only 4 deeds (a deed was
deleted between the count read and the page read). -/
def shortPageContract : Contract :=
  { get_deeds_count := 5, social_deeds := fun _ => fourDeedPage }

/-- C4 witness: with count 5 and a returned page of 4 deeds, the fetch still
partitions the short page and its rows flatten back to the page. -/
theorem fetchData_request_and_tolerance_witness :
    fetchData shortPageContract "alice" = splitArrayIntoChunksOfLen fourDeedPage 2
    ∧ (fetchData shortPageContract "alice").flatten = fourDeedPage :=
  (fetchData_request_and_tolerance shortPageContract "alice").2.2 fourDeedPage (by decide) rfl

/-- C5: when both an error payload and a success transaction id are present the
notifier produces exactly the error message (URI-decoded error wins); a
success-only signal produces `"Successfully executed transaction <id>"`; with no
signal present the state and the URL are left untouched (no message). -/
theorem notifier_priority (decodeURI : String → String) (e t : String)
    (st : AppState) (nav : NavState) (he : e ≠ "") (ht : t ≠ "") :
    (notifierEffect decodeURI (some e) (some t) st nav).1.message = decodeURI e
    ∧ (notifierEffect decodeURI (some e) none st nav).1.message = decodeURI e
    ∧ (notifierEffect decodeURI none (some t) st nav).1.message
        = "Successfully executed transaction " ++ t
    ∧ notifierEffect decodeURI none none st nav = (st, nav) := by
  refine ⟨?_, ?_, ?_, ?_⟩ <;> simp [notifierEffect, truthy, bne_iff_ne, he, ht]

/-- C5 witness: at a concrete error `"boom"` and transaction id `"tx1"` the error
message wins, the success-only case formats the success message, and the
no-signal case is a no-op. -/
theorem notifier_priority_witness :
    (notifierEffect id (some "boom") (some "tx1") ⟨"", false⟩ ⟨"o", "/p", [], ""⟩).1.message
        = "boom"
    ∧ (notifierEffect id none (some "tx1") ⟨"", false⟩ ⟨"o", "/p", [], ""⟩).1.message
        = "Successfully executed transaction tx1"
    ∧ notifierEffect id none none ⟨"", false⟩ ⟨"o", "/p", [], ""⟩
        = (⟨"", false⟩, ⟨"o", "/p", [], ""⟩) := by
  obtain ⟨h1, _, h3, h4⟩ :=
    notifier_priority id "boom" "tx1" ⟨"", false⟩ ⟨"o", "/p", [], ""⟩ (by decide) (by decide)
  exact ⟨h1, h3, h4⟩

/-- C6: consuming a transaction signal is idempotent — after the notifier
processes a non-`None` signal, the resulting retained navigation state no longer
carries any signal (both reads yield `none`), and re-invoking the notifier on
that state is a no-op (no second message on reload). -/
theorem notifier_consume_idempotent (decodeURI : String → String) (st st2 : AppState)
    (nav : NavState)
    (h : truthy (readError nav) = true ∨ truthy (readTransaction nav) = true) :
    readError (notifierEffect decodeURI (readError nav) (readTransaction nav) st nav).2 = none
    ∧ readTransaction
        (notifierEffect decodeURI (readError nav) (readTransaction nav) st nav).2 = none
    ∧ notifierEffect decodeURI
        (readError (notifierEffect decodeURI (readError nav) (readTransaction nav) st nav).2)
        (readTransaction (notifierEffect decodeURI (readError nav) (readTransaction nav) st nav).2)
        st2
        (notifierEffect decodeURI (readError nav) (readTransaction nav) st nav).2
      = (st2, (notifierEffect decodeURI (readError nav) (readTransaction nav) st nav).2) := by
  have hpurge :
      (notifierEffect decodeURI (readError nav) (readTransaction nav) st nav).2 = purgeNav nav := by
    by_cases he : truthy (readError nav) = true
    · simp [notifierEffect, he]
    · rcases h with h | h
      · exact absurd h he
      · simp [notifierEffect, he, h]
  rw [hpurge]
  refine ⟨rfl, rfl, ?_⟩
  simp [notifierEffect, truthy, readError, readTransaction, purgeNav]

/-- Retained navigation state carrying an error signal, used to instantiate C6. -/
def errorRedirectNav : NavState :=
  ⟨"https://app.example", "/", [("errorMessage", "oops")], ""⟩

/-- C6 witness: at a retained state carrying the error `"oops"`, one application
of the notifier leaves a state with no signal and a second application is a
no-op. -/
theorem notifier_consume_idempotent_witness :
    readError
      (notifierEffect id (readError errorRedirectNav) (readTransaction errorRedirectNav)
        ⟨"", false⟩ errorRedirectNav).2 = none
    ∧ readTransaction
        (notifierEffect id (readError errorRedirectNav) (readTransaction errorRedirectNav)
          ⟨"", false⟩ errorRedirectNav).2 = none
    ∧ notifierEffect id
        (readError
          (notifierEffect id (readError errorRedirectNav) (readTransaction errorRedirectNav)
            ⟨"", false⟩ errorRedirectNav).2)
        (readTransaction
          (notifierEffect id (readError errorRedirectNav) (readTransaction errorRedirectNav)
            ⟨"", false⟩ errorRedirectNav).2)
        ⟨"x", true⟩
        (notifierEffect id (readError errorRedirectNav) (readTransaction errorRedirectNav)
          ⟨"", false⟩ errorRedirectNav).2
      = (⟨"x", true⟩,
        (notifierEffect id (readError errorRedirectNav) (readTransaction errorRedirectNav)
          ⟨"", false⟩ errorRedirectNav).2) :=
  notifier_consume_idempotent id ⟨"", false⟩ ⟨"x", true⟩ errorRedirectNav (Or.inl (by decide))

/-- C7: contrary to the claim, nothing withholds the authenticated branches while
the registration check is pending — `registered` is initialized to `false` by
`useState(false)`, so before the check resolves every protected route already
renders the register branch for a signed-in user. -/
theorem pending_check_renders_register :
    initialAppState.registered = false
    ∧ routeElement .index (some ⟨"alice", "100"⟩) initialAppState.registered = View.register
    ∧ routeElement .publish (some ⟨"alice", "100"⟩) initialAppState.registered = View.register
    ∧ routeElement .overview (some ⟨"alice", "100"⟩) initialAppState.registered = View.register
    ∧ routeElement .donate (some ⟨"alice", "100"⟩) initialAppState.registered = View.register :=
  ⟨rfl, rfl, rfl, rfl, rfl⟩

/-- C8: contrary to the claim, a failing registration check leaves the state
exactly as it was (`setRegistered` is never called and the rejection is
unhandled), so a signed-in user is shown the register (unregistered) view —
there is no loading/error condition distinct from the two authenticated
variants. -/
theorem failed_check_renders_register :
    fetchRegistered (Except.error "network error") initialAppState = initialAppState
    ∧ (fetchRegistered (Except.error "network error") initialAppState).registered = false
    ∧ routeElement .overview (some ⟨"carol", "0"⟩)
        (fetchRegistered (Except.error "network error") initialAppState).registered
      = View.register :=
  ⟨rfl, rfl, rfl⟩

/-- Retained navigation state holding both an unrelated query parameter
`page=2` and a success signal, used to exhibit C9's clobbering. -/
def unrelatedParamNav : NavState :=
  ⟨"https://app.example", "/overview", [("page", "2"), ("transactionHashes", "7gp")], "#top"⟩

/-- C9: contrary to the claim, the notifier's purge and the sign-out cleanup are
blind overwrites of the URL with `origin + pathname`: consuming the success
signal also drops the unrelated retained parameter `page=2` (and the fragment),
and the sign-out navigation does the same. -/
theorem purge_clobbers_unrelated :
    readTransaction unrelatedParamNav = some "7gp"
    ∧ unrelatedParamNav.search.lookup "page" = some "2"
    ∧ ((notifierEffect id (readError unrelatedParamNav) (readTransaction unrelatedParamNav)
        initialAppState unrelatedParamNav).2).search.lookup "page" = none
    ∧ ((notifierEffect id (readError unrelatedParamNav) (readTransaction unrelatedParamNav)
        initialAppState unrelatedParamNav).2).hash = ""
    ∧ (signOutNavEffect unrelatedParamNav).search.lookup "page" = none
    ∧ (signOutNavEffect unrelatedParamNav).hash = "" := by
  exact ⟨rfl, rfl, by decide, by decide, rfl, rfl⟩

/-- C10: the credit handler performs no remote call when `deed.is_creditor` is
true and instead sets the local message `"You already credited deed #<id>"`;
otherwise it issues exactly one `credit` call with the deed's id, the fixed gas
budget `3·10^13`, and the fixed attached deposit `2·10^21` yoctoNEAR
(0.002 NEAR). -/
theorem onCredit_dispatch (deed : Deed) (st : AppState) :
    (deed.is_creditor = true →
      onCredit deed st
        = ({ st with message := "You already credited deed #" ++ toString deed.id }, none))
    ∧ (deed.is_creditor = false →
      onCredit deed st
        = (st, some { id := deed.id, gas := BOATLOAD_OF_GAS, deposit := creditDepositYocto }))
    ∧ BOATLOAD_OF_GAS = 3 * 10 ^ 13
    ∧ creditDepositYocto = 2 * 10 ^ 21 := by
  refine ⟨fun h => ?_, fun h => ?_, rfl, rfl⟩ <;> simp [onCredit, h]

/-- C10 witness: an already-credited deed only sets the local message, while a
creditable deed issues the call with its id, the fixed gas and the fixed
deposit. -/
theorem onCredit_dispatch_witness :
    onCredit ⟨4, "ben", "t", "d", "p", 1, true⟩ ⟨"", true⟩
      = (⟨"You already credited deed #4", true⟩, none)
    ∧ onCredit ⟨5, "ben", "t", "d", "p", 0, false⟩ ⟨"", true⟩
      = (⟨"", true⟩, some ⟨5, 3 * 10 ^ 13, 2 * 10 ^ 21⟩) :=
  ⟨(onCredit_dispatch ⟨4, "ben", "t", "d", "p", 1, true⟩ ⟨"", true⟩).1 rfl,
    (onCredit_dispatch ⟨5, "ben", "t", "d", "p", 0, false⟩ ⟨"", true⟩).2.1 rfl⟩

end SocialGoodHunt
